import Mathlib

/-!
Shallow embedding of the `plug-proto` repository's two C++ source files:
`src/cpp/wayland_presentation.cpp` (the `WaylandPresentationMonitor` class,
its feedback struct, and the stub handle providers) and `src/cpp/timer.cpp`
(the timer difference helper).

Machine integers (`uint64_t`, `uint32_t`, `uintptr_t`) are represented by
`Nat` holding the represented value; arithmetic the program performs that can
leave the range is reduced explicitly modulo `2 ^ 64` (the counter
increments and the unsigned subtraction of the timer helper).  Arguments and
plain stores represent already-in-range machine values and are kept as-is.
The registered callback is modelled by an `Option Nat` identity slot, and the
effect of invoking it is made observable as an explicit list of deliveries
(the event passed to the callback together with the monitor state visible to
the callback at the moment of invocation).
-/

/-- Mirrors `struct PresentationFeedback`: `timestamp_ns` and `sequence` are
`uint64_t`, `refresh_ns` and `flags` are `uint32_t`, `presented` is `bool`. -/
structure PresentationFeedback where
  timestamp_ns : Nat
  sequence : Nat
  refresh_ns : Nat
  flags : Nat
  presented : Bool
deriving DecidableEq

/-- Mirrors the data members of `class WaylandPresentationMonitor`:
three opaque handle pointers (0 models `nullptr`), the callback slot
(`none` models an empty `std::function`), the four statistics counters and
the two last-presented fields (all `uint64_t`). -/
structure MonitorState where
  wl_display : Nat
  wl_surface : Nat
  wp_presentation : Nat
  callback : Option Nat
  presented_count : Nat
  discarded_count : Nat
  vsync_count : Nat
  zero_copy_count : Nat
  last_sequence : Nat
  last_timestamp_ns : Nat
deriving DecidableEq

/-- One synchronous callback invocation: the event handed to the callback and
the monitor state the callback observes at the moment it runs. -/
structure Delivery where
  event : PresentationFeedback
  observed : MonitorState
deriving DecidableEq

/-- The constructor `WaylandPresentationMonitor()`: the three handles are set
to `nullptr` and the four counters to 0 in the member-initializer list; the
remaining two `std::atomic<uint64_t>` members and the callback slot are
value-initialized (zero / empty). -/
def freshMonitor : MonitorState :=
  { wl_display := 0, wl_surface := 0, wp_presentation := 0, callback := none,
    presented_count := 0, discarded_count := 0, vsync_count := 0,
    zero_copy_count := 0, last_sequence := 0, last_timestamp_ns := 0 }

/-- `WaylandPresentationMonitor::initialize(wl_display, wl_surface,
wp_presentation)`: stores the three handles unconditionally and returns
whether all three stored pointers are non-null. -/
def initMonitor (d s p : Nat) (m : MonitorState) : MonitorState × Bool :=
  ({ m with wl_display := d, wl_surface := s, wp_presentation := p },
   d != 0 && s != 0 && p != 0)

/-- `WaylandPresentationMonitor::set_callback(callback)`: replaces the
callback slot (the mutex only matters under concurrency). -/
def set_callback (cb : Option Nat) (m : MonitorState) : MonitorState :=
  { m with callback := cb }

/-- `WaylandPresentationMonitor::request_feedback()`: a no-op. -/
def request_feedback (m : MonitorState) : MonitorState × List Delivery :=
  (m, [])

/-- `WaylandPresentationMonitor::simulate_presented(timestamp_ns, sequence,
flags)`: builds a presented event with `refresh_ns = 16666666`, increments
`presented_count_`, stores the last timestamp and sequence, increments
`vsync_count_` when bit 0 of `flags` is set and `zero_copy_count_` when
bit 3 is set, then, if a callback is registered, invokes it with the event
(so the callback observes the fully updated state). -/
def simulate_presented (timestamp_ns sequence flags : Nat) (m : MonitorState) :
    MonitorState × List Delivery :=
  let fb : PresentationFeedback :=
    { timestamp_ns := timestamp_ns, sequence := sequence,
      refresh_ns := 16666666, flags := flags, presented := true }
  let m1 := { m with
    presented_count := (m.presented_count + 1) % 2 ^ 64,
    last_timestamp_ns := timestamp_ns,
    last_sequence := sequence }
  let m2 :=
    if flags &&& 0x1 ≠ 0 then
      { m1 with vsync_count := (m1.vsync_count + 1) % 2 ^ 64 }
    else m1
  let m3 :=
    if flags &&& 0x8 ≠ 0 then
      { m2 with zero_copy_count := (m2.zero_copy_count + 1) % 2 ^ 64 }
    else m2
  (m3, if m3.callback.isSome then [{ event := fb, observed := m3 }] else [])

/-- `WaylandPresentationMonitor::simulate_discarded()`: the local
`PresentationFeedback fb;` is default-initialized, so every field other than
the explicitly assigned `presented = false` keeps an indeterminate value;
the parameter `junk` models those indeterminate field contents.  The method
increments `discarded_count_` and, if a callback is registered, invokes it
with the event. -/
def simulate_discarded (junk : PresentationFeedback) (m : MonitorState) :
    MonitorState × List Delivery :=
  let fb := { junk with presented := false }
  let m1 := { m with discarded_count := (m.discarded_count + 1) % 2 ^ 64 }
  (m1, if m1.callback.isSome then [{ event := fb, observed := m1 }] else [])

/-- The public mutating operations of the monitor, for reasoning about
arbitrary sequential call sequences. -/
inductive Op where
  | initMonitor (d s p : Nat)
  | set_callback (cb : Option Nat)
  | request_feedback
  | simulate_presented (timestamp_ns sequence flags : Nat)
  | simulate_discarded (junk : PresentationFeedback)
deriving DecidableEq

/-- Apply one operation, returning the new state and the callback deliveries
the call performed. -/
def applyOp (m : MonitorState) : Op → MonitorState × List Delivery
  | Op.initMonitor d s p => ((initMonitor d s p m).1, [])
  | Op.set_callback cb => (set_callback cb m, [])
  | Op.request_feedback => request_feedback m
  | Op.simulate_presented ts sq fl => simulate_presented ts sq fl m
  | Op.simulate_discarded junk => simulate_discarded junk m

/-- Run a sequence of operations from a state, collecting all callback
deliveries in call order. -/
def run (m : MonitorState) : List Op → MonitorState × List Delivery
  | [] => (m, [])
  | op :: ops =>
      let r := applyOp m op
      let r2 := run r.1 ops
      (r2.1, r.2 ++ r2.2)

/-- Number of operations in a sequence satisfying a predicate. -/
def countMatching (f : Op → Bool) : List Op → Nat
  | [] => 0
  | op :: t => (if f op then 1 else 0) + countMatching f t

/-- The operation is a presented-event ingestion. -/
def isPresentedEv : Op → Bool
  | Op.simulate_presented _ _ _ => true
  | _ => false

/-- The operation is a discarded-event ingestion. -/
def isDiscardedEv : Op → Bool
  | Op.simulate_discarded _ => true
  | _ => false

/-- The operation is a presented-event ingestion with flag bit 0 (vsync). -/
def isVsyncEv : Op → Bool
  | Op.simulate_presented _ _ fl => decide (fl &&& 0x1 ≠ 0)
  | _ => false

/-- The operation is a presented-event ingestion with flag bit 3
(zero-copy). -/
def isZeroCopyEv : Op → Bool
  | Op.simulate_presented _ _ fl => decide (fl &&& 0x8 ≠ 0)
  | _ => false

/-- The spec's Ready state as a property of the call history: some
`initialize` call was made whose three handles were all non-null (exactly
the calls that returned true, since the result depends only on the
arguments). -/
def readyAfter (ops : List Op) : Bool :=
  ops.any fun op =>
    match op with
    | Op.initMonitor d s p => d != 0 && s != 0 && p != 0
    | _ => false

/-- `get_wl_display_ptr()` from `wayland_presentation.cpp`: the stub always
returns 0. -/
def get_wl_display_ptr : Nat := 0

/-- `get_wl_surface_ptr(qwindow_ptr)` from `wayland_presentation.cpp`: the
stub always returns 0. -/
def get_wl_surface_ptr (qwindow_ptr : Nat) : Nat := 0

/-- Unsigned 64-bit subtraction `a - b` on represented values: wraps modulo
`2 ^ 64`. -/
def uint64_sub (a b : Nat) : Nat := (a + 2 ^ 64 - b % 2 ^ 64) % 2 ^ 64

/-- `get_timer_diff_ms(start, end)` from `timer.cpp`: the unsigned 64-bit
difference `end - start` divided by 1000, under exact (rational) semantics
of the floating-point division. -/
def get_timer_diff_ms (start stop : Nat) : ℚ :=
  ((uint64_sub stop start : Nat) : ℚ) / 1000

/-- A discarded-event junk value whose fields all happen to be zero. -/
def fbZero : PresentationFeedback :=
  { timestamp_ns := 0, sequence := 0, refresh_ns := 0, flags := 0,
    presented := false }

/-- Indeterminate stack contents whose fields are all 7. -/
def junk7 : PresentationFeedback :=
  { timestamp_ns := 7, sequence := 7, refresh_ns := 7, flags := 7,
    presented := true }

/-- A freshly constructed monitor with a callback registered. -/
def cbMonitor : MonitorState := set_callback (some 0) freshMonitor

/-- A monitor state whose discard counter sits at the top of the `uint64_t`
range. -/
def bigState : MonitorState :=
  { freshMonitor with discarded_count := 2 ^ 64 - 1 }

/-- The call sequence of the spec's callback-delivery-ordering test:
register a callback, then `simulate_presented(100, 1, 1)`,
`simulate_discarded()` (with indeterminate junk fields), and
`simulate_presented(200, 2, 8)`. -/
def c2ops (junk : PresentationFeedback) : List Op :=
  [Op.set_callback (some 0), Op.simulate_presented 100 1 1,
   Op.simulate_discarded junk, Op.simulate_presented 200 2 8]

theorem run_nil (m : MonitorState) : run m [] = (m, []) := rfl

theorem run_cons (m : MonitorState) (op : Op) (ops : List Op) :
    run m (op :: ops)
      = ((run (applyOp m op).1 ops).1,
         (applyOp m op).2 ++ (run (applyOp m op).1 ops).2) := rfl

theorem simulate_presented_fst (ts sq fl : Nat) (m : MonitorState) :
    (simulate_presented ts sq fl m).1
      = { m with
          presented_count := (m.presented_count + 1) % 2 ^ 64,
          last_timestamp_ns := ts,
          last_sequence := sq,
          vsync_count :=
            if fl &&& 0x1 ≠ 0 then (m.vsync_count + 1) % 2 ^ 64
            else m.vsync_count,
          zero_copy_count :=
            if fl &&& 0x8 ≠ 0 then (m.zero_copy_count + 1) % 2 ^ 64
            else m.zero_copy_count } := by
  unfold simulate_presented
  split_ifs <;> rfl

theorem simulate_presented_snd (ts sq fl : Nat) (m : MonitorState) :
    (simulate_presented ts sq fl m).2
      = if m.callback.isSome then
          [{ event := { timestamp_ns := ts, sequence := sq,
                        refresh_ns := 16666666, flags := fl,
                        presented := true },
             observed := (simulate_presented ts sq fl m).1 }]
        else [] := by
  unfold simulate_presented
  split_ifs <;> simp_all

theorem countMatching_le_length (f : Op → Bool) (ops : List Op) :
    countMatching f ops ≤ ops.length := by
  induction ops with
  | nil => simp [countMatching]
  | cons op t ih =>
      simp only [countMatching, List.length_cons]
      split_ifs <;> omega

theorem countMatching_append (f : Op → Bool) (a b : List Op) :
    countMatching f (a ++ b) = countMatching f a + countMatching f b := by
  induction a with
  | nil => simp [countMatching]
  | cons op t ih =>
      rw [List.cons_append]
      simp only [countMatching]
      rw [ih]
      omega

theorem run_presented_count (ops : List Op) :
    ∀ m : MonitorState, m.presented_count < 2 ^ 64 →
      (run m ops).1.presented_count
        = (m.presented_count + countMatching isPresentedEv ops) % 2 ^ 64 := by
  induction ops with
  | nil =>
      intro m hm
      simp only [run, countMatching, Nat.add_zero]
      exact (Nat.mod_eq_of_lt hm).symm
  | cons op t ih =>
      intro m hm
      rw [run_cons]
      cases op with
      | initMonitor d s p =>
          rw [ih _ (by simpa [applyOp, initMonitor] using hm)]
          simp [applyOp, initMonitor, countMatching, isPresentedEv]
      | set_callback cb =>
          rw [ih _ (by simpa [applyOp, set_callback] using hm)]
          simp [applyOp, set_callback, countMatching, isPresentedEv]
      | request_feedback =>
          rw [ih _ (by simpa [applyOp, request_feedback] using hm)]
          simp [applyOp, request_feedback, countMatching, isPresentedEv]
      | simulate_discarded junk =>
          rw [ih _ (by simpa [applyOp, simulate_discarded] using hm)]
          simp [applyOp, simulate_discarded, countMatching, isPresentedEv]
      | simulate_presented ts sq fl =>
          have hlt :
              ((applyOp m (Op.simulate_presented ts sq fl)).1).presented_count
                < 2 ^ 64 := by
            simp only [applyOp, simulate_presented_fst]
            exact Nat.mod_lt _ (by norm_num)
          rw [ih _ hlt]
          simp only [applyOp, simulate_presented_fst, countMatching,
            isPresentedEv, Nat.mod_add_mod, if_true]
          congr 1
          omega

theorem run_discarded_count (ops : List Op) :
    ∀ m : MonitorState, m.discarded_count < 2 ^ 64 →
      (run m ops).1.discarded_count
        = (m.discarded_count + countMatching isDiscardedEv ops) % 2 ^ 64 := by
  induction ops with
  | nil =>
      intro m hm
      simp only [run, countMatching, Nat.add_zero]
      exact (Nat.mod_eq_of_lt hm).symm
  | cons op t ih =>
      intro m hm
      rw [run_cons]
      cases op with
      | initMonitor d s p =>
          rw [ih _ (by simpa [applyOp, initMonitor] using hm)]
          simp [applyOp, initMonitor, countMatching, isDiscardedEv]
      | set_callback cb =>
          rw [ih _ (by simpa [applyOp, set_callback] using hm)]
          simp [applyOp, set_callback, countMatching, isDiscardedEv]
      | request_feedback =>
          rw [ih _ (by simpa [applyOp, request_feedback] using hm)]
          simp [applyOp, request_feedback, countMatching, isDiscardedEv]
      | simulate_presented ts sq fl =>
          rw [ih _ (by simpa [applyOp, simulate_presented_fst] using hm)]
          simp [applyOp, simulate_presented_fst, countMatching, isDiscardedEv]
      | simulate_discarded junk =>
          have hlt :
              ((applyOp m (Op.simulate_discarded junk)).1).discarded_count
                < 2 ^ 64 := by
            simp only [applyOp, simulate_discarded]
            exact Nat.mod_lt _ (by norm_num)
          rw [ih _ hlt]
          simp only [applyOp, simulate_discarded, countMatching, isDiscardedEv,
            Nat.mod_add_mod, if_true]
          congr 1
          omega

theorem run_vsync_count (ops : List Op) :
    ∀ m : MonitorState, m.vsync_count < 2 ^ 64 →
      (run m ops).1.vsync_count
        = (m.vsync_count + countMatching isVsyncEv ops) % 2 ^ 64 := by
  induction ops with
  | nil =>
      intro m hm
      simp only [run, countMatching, Nat.add_zero]
      exact (Nat.mod_eq_of_lt hm).symm
  | cons op t ih =>
      intro m hm
      rw [run_cons]
      cases op with
      | initMonitor d s p =>
          rw [ih _ (by simpa [applyOp, initMonitor] using hm)]
          simp [applyOp, initMonitor, countMatching, isVsyncEv]
      | set_callback cb =>
          rw [ih _ (by simpa [applyOp, set_callback] using hm)]
          simp [applyOp, set_callback, countMatching, isVsyncEv]
      | request_feedback =>
          rw [ih _ (by simpa [applyOp, request_feedback] using hm)]
          simp [applyOp, request_feedback, countMatching, isVsyncEv]
      | simulate_discarded junk =>
          rw [ih _ (by simpa [applyOp, simulate_discarded] using hm)]
          simp [applyOp, simulate_discarded, countMatching, isVsyncEv]
      | simulate_presented ts sq fl =>
          by_cases hb : fl &&& 0x1 ≠ 0
          · have hlt :
                ((applyOp m (Op.simulate_presented ts sq fl)).1).vsync_count
                  < 2 ^ 64 := by
              simp only [applyOp, simulate_presented_fst, if_pos hb]
              exact Nat.mod_lt _ (by norm_num)
            rw [ih _ hlt]
            simp only [applyOp, simulate_presented_fst, if_pos hb,
              countMatching, isVsyncEv, Nat.mod_add_mod]
            rw [if_pos (by simpa using hb)]
            congr 1
            omega
          · have hlt :
                ((applyOp m (Op.simulate_presented ts sq fl)).1).vsync_count
                  < 2 ^ 64 := by
              simp only [applyOp, simulate_presented_fst, if_neg hb]
              exact hm
            rw [ih _ hlt]
            simp only [applyOp, simulate_presented_fst, if_neg hb,
              countMatching, isVsyncEv]
            rw [if_neg (by simpa using hb)]
            congr 1
            omega

theorem run_zero_copy_count (ops : List Op) :
    ∀ m : MonitorState, m.zero_copy_count < 2 ^ 64 →
      (run m ops).1.zero_copy_count
        = (m.zero_copy_count + countMatching isZeroCopyEv ops) % 2 ^ 64 := by
  induction ops with
  | nil =>
      intro m hm
      simp only [run, countMatching, Nat.add_zero]
      exact (Nat.mod_eq_of_lt hm).symm
  | cons op t ih =>
      intro m hm
      rw [run_cons]
      cases op with
      | initMonitor d s p =>
          rw [ih _ (by simpa [applyOp, initMonitor] using hm)]
          simp [applyOp, initMonitor, countMatching, isZeroCopyEv]
      | set_callback cb =>
          rw [ih _ (by simpa [applyOp, set_callback] using hm)]
          simp [applyOp, set_callback, countMatching, isZeroCopyEv]
      | request_feedback =>
          rw [ih _ (by simpa [applyOp, request_feedback] using hm)]
          simp [applyOp, request_feedback, countMatching, isZeroCopyEv]
      | simulate_discarded junk =>
          rw [ih _ (by simpa [applyOp, simulate_discarded] using hm)]
          simp [applyOp, simulate_discarded, countMatching, isZeroCopyEv]
      | simulate_presented ts sq fl =>
          by_cases hb : fl &&& 0x8 ≠ 0
          · have hlt :
                ((applyOp m (Op.simulate_presented ts sq fl)).1).zero_copy_count
                  < 2 ^ 64 := by
              simp only [applyOp, simulate_presented_fst, if_pos hb]
              exact Nat.mod_lt _ (by norm_num)
            rw [ih _ hlt]
            simp only [applyOp, simulate_presented_fst, if_pos hb,
              countMatching, isZeroCopyEv, Nat.mod_add_mod]
            rw [if_pos (by simpa using hb)]
            congr 1
            omega
          · have hlt :
                ((applyOp m (Op.simulate_presented ts sq fl)).1).zero_copy_count
                  < 2 ^ 64 := by
              simp only [applyOp, simulate_presented_fst, if_neg hb]
              exact hm
            rw [ih _ hlt]
            simp only [applyOp, simulate_presented_fst, if_neg hb,
              countMatching, isZeroCopyEv]
            rw [if_neg (by simpa using hb)]
            congr 1
            omega

theorem fresh_presented_exact (ops : List Op) (h : ops.length < 2 ^ 64) :
    (run freshMonitor ops).1.presented_count
      = countMatching isPresentedEv ops := by
  rw [run_presented_count ops freshMonitor (by norm_num [freshMonitor])]
  have hc : countMatching isPresentedEv ops < 2 ^ 64 :=
    lt_of_le_of_lt (countMatching_le_length _ _) h
  simp only [freshMonitor, Nat.zero_add]
  exact Nat.mod_eq_of_lt hc

theorem fresh_discarded_exact (ops : List Op) (h : ops.length < 2 ^ 64) :
    (run freshMonitor ops).1.discarded_count
      = countMatching isDiscardedEv ops := by
  rw [run_discarded_count ops freshMonitor (by norm_num [freshMonitor])]
  have hc : countMatching isDiscardedEv ops < 2 ^ 64 :=
    lt_of_le_of_lt (countMatching_le_length _ _) h
  simp only [freshMonitor, Nat.zero_add]
  exact Nat.mod_eq_of_lt hc

theorem fresh_vsync_exact (ops : List Op) (h : ops.length < 2 ^ 64) :
    (run freshMonitor ops).1.vsync_count = countMatching isVsyncEv ops := by
  rw [run_vsync_count ops freshMonitor (by norm_num [freshMonitor])]
  have hc : countMatching isVsyncEv ops < 2 ^ 64 :=
    lt_of_le_of_lt (countMatching_le_length _ _) h
  simp only [freshMonitor, Nat.zero_add]
  exact Nat.mod_eq_of_lt hc

theorem fresh_zero_copy_exact (ops : List Op) (h : ops.length < 2 ^ 64) :
    (run freshMonitor ops).1.zero_copy_count
      = countMatching isZeroCopyEv ops := by
  rw [run_zero_copy_count ops freshMonitor (by norm_num [freshMonitor])]
  have hc : countMatching isZeroCopyEv ops < 2 ^ 64 :=
    lt_of_le_of_lt (countMatching_le_length _ _) h
  simp only [freshMonitor, Nat.zero_add]
  exact Nat.mod_eq_of_lt hc

theorem countMatching_replicate_discarded (n : Nat) (j : PresentationFeedback) :
    countMatching isDiscardedEv (List.replicate n (Op.simulate_discarded j))
      = n := by
  induction n with
  | zero => simp [countMatching]
  | succ k ih =>
      simp [List.replicate_succ, countMatching, isDiscardedEv, ih]
      omega

/-- Claim C1, amended: for every sequence of fewer than `2 ^ 64` calls on one
freshly constructed monitor, each of the four statistics counters is
non-decreasing after every call, and after the whole sequence
`presented_count` equals the number of presented events, `discarded_count`
the number of discarded events, `vsync_count` the number of presented events
with flag bit 0 set, and `zero_copy_count` the number of presented events
with flag bit 3 set.  (Without the length bound the `uint64_t` counters wrap
modulo `2 ^ 64`.) -/
theorem counters_monotone_and_exact (ops : List Op) (h : ops.length < 2 ^ 64) :
    (∀ l₁ l₂ l₃, ops = l₁ ++ l₂ ++ l₃ →
        (run freshMonitor l₁).1.presented_count
            ≤ (run freshMonitor (l₁ ++ l₂)).1.presented_count
        ∧ (run freshMonitor l₁).1.discarded_count
            ≤ (run freshMonitor (l₁ ++ l₂)).1.discarded_count
        ∧ (run freshMonitor l₁).1.vsync_count
            ≤ (run freshMonitor (l₁ ++ l₂)).1.vsync_count
        ∧ (run freshMonitor l₁).1.zero_copy_count
            ≤ (run freshMonitor (l₁ ++ l₂)).1.zero_copy_count)
    ∧ (run freshMonitor ops).1.presented_count = countMatching isPresentedEv ops
    ∧ (run freshMonitor ops).1.discarded_count = countMatching isDiscardedEv ops
    ∧ (run freshMonitor ops).1.vsync_count = countMatching isVsyncEv ops
    ∧ (run freshMonitor ops).1.zero_copy_count
        = countMatching isZeroCopyEv ops := by
  refine ⟨?_, fresh_presented_exact ops h, fresh_discarded_exact ops h,
    fresh_vsync_exact ops h, fresh_zero_copy_exact ops h⟩
  intro l₁ l₂ l₃ hsplit
  have hlen : (l₁ ++ l₂ ++ l₃).length < 2 ^ 64 := hsplit ▸ h
  simp only [List.length_append] at hlen
  have h1 : l₁.length < 2 ^ 64 := by omega
  have h12 : (l₁ ++ l₂).length < 2 ^ 64 := by
    simp only [List.length_append]
    omega
  refine ⟨?_, ?_, ?_, ?_⟩
  · rw [fresh_presented_exact _ h1, fresh_presented_exact _ h12,
      countMatching_append]
    exact Nat.le_add_right _ _
  · rw [fresh_discarded_exact _ h1, fresh_discarded_exact _ h12,
      countMatching_append]
    exact Nat.le_add_right _ _
  · rw [fresh_vsync_exact _ h1, fresh_vsync_exact _ h12, countMatching_append]
    exact Nat.le_add_right _ _
  · rw [fresh_zero_copy_exact _ h1, fresh_zero_copy_exact _ h12,
      countMatching_append]
    exact Nat.le_add_right _ _

/-- Witness for `counters_monotone_and_exact` at a concrete two-call
sequence. -/
theorem counters_monotone_and_exact_witness :
    ([Op.simulate_presented 100 1 9, Op.simulate_discarded fbZero] :
        List Op).length < 2 ^ 64
    ∧ (run freshMonitor
          [Op.simulate_presented 100 1 9, Op.simulate_discarded fbZero]
        ).1.presented_count
        = countMatching isPresentedEv
            [Op.simulate_presented 100 1 9, Op.simulate_discarded fbZero] :=
  ⟨by norm_num,
   (counters_monotone_and_exact
      [Op.simulate_presented 100 1 9, Op.simulate_discarded fbZero]
      (by norm_num)).2.1⟩

/-- Counterexample to claim C1 as stated: after `2 ^ 64` discarded
ingestions on a fresh monitor the `uint64_t` discard counter has wrapped to
0, so it does not equal the number of discarded events. -/
theorem counters_exact_overflow_cex :
    (run freshMonitor
        (List.replicate (2 ^ 64) (Op.simulate_discarded fbZero))
      ).1.discarded_count
      ≠ countMatching isDiscardedEv
          (List.replicate (2 ^ 64) (Op.simulate_discarded fbZero)) := by
  rw [run_discarded_count _ freshMonitor (by norm_num [freshMonitor]),
    countMatching_replicate_discarded]
  simp [freshMonitor]

/-- Claim C2: with a callback registered on a freshly constructed monitor,
the calls `simulate_presented(100, 1, 1)`, `simulate_discarded()`,
`simulate_presented(200, 2, 8)` deliver exactly three events to the callback
in call order, the second with `presented = false`, and leave
`presented_count = 2`, `discarded_count = 1`, `vsync_count = 1`,
`zero_copy_count = 1`, `last_sequence = 2`, `last_timestamp_ns = 200`
(whatever indeterminate junk the discarded event's remaining fields hold). -/
theorem callback_log_sequence (junk : PresentationFeedback) :
    (run freshMonitor (c2ops junk)).2.map Delivery.event
      = [{ timestamp_ns := 100, sequence := 1, refresh_ns := 16666666,
           flags := 1, presented := true },
         { junk with presented := false },
         { timestamp_ns := 200, sequence := 2, refresh_ns := 16666666,
           flags := 8, presented := true }]
    ∧ (run freshMonitor (c2ops junk)).2.map
        (fun dl => dl.event.presented) = [true, false, true]
    ∧ (run freshMonitor (c2ops junk)).1.presented_count = 2
    ∧ (run freshMonitor (c2ops junk)).1.discarded_count = 1
    ∧ (run freshMonitor (c2ops junk)).1.vsync_count = 1
    ∧ (run freshMonitor (c2ops junk)).1.zero_copy_count = 1
    ∧ (run freshMonitor (c2ops junk)).1.last_sequence = 2
    ∧ (run freshMonitor (c2ops junk)).1.last_timestamp_ns = 200 := by
  norm_num [c2ops, run, applyOp, set_callback, simulate_presented,
    simulate_discarded, freshMonitor]

/-- Claim C3, amended: for every monitor state, `simulate_discarded`
increments `discarded_count` by one modulo `2 ^ 64` (hence exactly by one
whenever the `uint64_t` counter is below its maximum) and changes no other
observable state: the last fields, the other counters, the stored handles
and the registered callback all keep their pre-call values; since this holds
for every state, it holds for any number of discarded ingestions interleaved
with presented ones. -/
theorem discarded_increments_only_mod (junk : PresentationFeedback)
    (m : MonitorState) :
    (simulate_discarded junk m).1.discarded_count
        = (m.discarded_count + 1) % 2 ^ 64
    ∧ (simulate_discarded junk m).1.last_sequence = m.last_sequence
    ∧ (simulate_discarded junk m).1.last_timestamp_ns = m.last_timestamp_ns
    ∧ (simulate_discarded junk m).1.presented_count = m.presented_count
    ∧ (simulate_discarded junk m).1.vsync_count = m.vsync_count
    ∧ (simulate_discarded junk m).1.zero_copy_count = m.zero_copy_count
    ∧ (simulate_discarded junk m).1.wl_display = m.wl_display
    ∧ (simulate_discarded junk m).1.wl_surface = m.wl_surface
    ∧ (simulate_discarded junk m).1.wp_presentation = m.wp_presentation
    ∧ (simulate_discarded junk m).1.callback = m.callback :=
  ⟨rfl, rfl, rfl, rfl, rfl, rfl, rfl, rfl, rfl, rfl⟩

/-- Counterexample to claim C3 as stated: in the state whose `uint64_t`
discard counter holds its maximum value `2 ^ 64 - 1`, `simulate_discarded`
wraps the counter to 0 instead of incrementing it by one. -/
theorem discarded_increment_overflow_cex :
    (simulate_discarded fbZero bigState).1.discarded_count
      ≠ bigState.discarded_count + 1 := by
  show (2 ^ 64 - 1 + 1) % 2 ^ 64 ≠ 2 ^ 64 - 1 + 1
  norm_num

/-- Claim C4: `initialize(d, s, p)` stores the three handles unconditionally
on every call, returns true exactly when all three are non-zero, and leaves
every other observable — the four counters, the last fields and the
registered callback — at its pre-call value; in particular
`initialize(0, 0, 0)` returns false and `initialize(1, 1, 1)` returns
true. -/
theorem init_stores_and_gates (d s p : Nat) (m : MonitorState) :
    (initMonitor d s p m).1.wl_display = d
    ∧ (initMonitor d s p m).1.wl_surface = s
    ∧ (initMonitor d s p m).1.wp_presentation = p
    ∧ ((initMonitor d s p m).2 = true ↔ (d ≠ 0 ∧ s ≠ 0 ∧ p ≠ 0))
    ∧ (initMonitor d s p m).1.presented_count = m.presented_count
    ∧ (initMonitor d s p m).1.discarded_count = m.discarded_count
    ∧ (initMonitor d s p m).1.vsync_count = m.vsync_count
    ∧ (initMonitor d s p m).1.zero_copy_count = m.zero_copy_count
    ∧ (initMonitor d s p m).1.last_sequence = m.last_sequence
    ∧ (initMonitor d s p m).1.last_timestamp_ns = m.last_timestamp_ns
    ∧ (initMonitor d s p m).1.callback = m.callback
    ∧ (initMonitor 0 0 0 m).2 = false
    ∧ (initMonitor 1 1 1 m).2 = true := by
  refine ⟨rfl, rfl, rfl, ?_, rfl, rfl, rfl, rfl, rfl, rfl, rfl, rfl, rfl⟩
  simp [initMonitor]
  tauto

/-- Claim C5: for all arguments and any monitor with a callback registered,
`simulate_presented(timestamp_ns, sequence, flags)` invokes the callback
exactly once, with an event carrying `presented = true`, the three
arguments, and the 60 Hz default `refresh_ns = 16666666`, and the state the
callback observes is the fully updated post-call state. -/
theorem presented_callback_delivery (ts sq fl : Nat) (m : MonitorState)
    (h : m.callback.isSome = true) :
    (simulate_presented ts sq fl m).2
      = [{ event := { timestamp_ns := ts, sequence := sq,
                      refresh_ns := 16666666, flags := fl,
                      presented := true },
           observed := (simulate_presented ts sq fl m).1 }] := by
  rw [simulate_presented_snd, if_pos h]

/-- Witness for `presented_callback_delivery` on a fresh monitor with a
registered callback. -/
theorem presented_callback_delivery_witness :
    cbMonitor.callback.isSome = true
    ∧ (simulate_presented 100 7 9 cbMonitor).2
        = [{ event := { timestamp_ns := 100, sequence := 7,
                        refresh_ns := 16666666, flags := 9,
                        presented := true },
             observed := (simulate_presented 100 7 9 cbMonitor).1 }] :=
  ⟨rfl, presented_callback_delivery 100 7 9 cbMonitor rfl⟩

/-- Claim C6, evaluation at the failing input: when the stack memory backing
the local `PresentationFeedback fb;` of `simulate_discarded` holds nonzero
junk (here all fields 7), the callback receives an event whose
`presented` field is false but whose presentation fields are the junk
values, not zero — the code never assigns them. -/
theorem discarded_uninit_fields_eval :
    (simulate_discarded junk7 cbMonitor).2.map Delivery.event
      = [{ timestamp_ns := 7, sequence := 7, refresh_ns := 7, flags := 7,
           presented := false }]
    ∧ (simulate_discarded junk7 cbMonitor).2.map
        (fun dl => dl.event.timestamp_ns) = [7] := by
  constructor <;> rfl

/-- Claim C7: a freshly constructed monitor has all four counters, both last
fields, and all three stored handles at zero/null, and no callback
registered. -/
theorem fresh_monitor_zeroed :
    freshMonitor.presented_count = 0
    ∧ freshMonitor.discarded_count = 0
    ∧ freshMonitor.vsync_count = 0
    ∧ freshMonitor.zero_copy_count = 0
    ∧ freshMonitor.last_sequence = 0
    ∧ freshMonitor.last_timestamp_ns = 0
    ∧ freshMonitor.wl_display = 0
    ∧ freshMonitor.wl_surface = 0
    ∧ freshMonitor.wp_presentation = 0
    ∧ freshMonitor.callback = none :=
  ⟨rfl, rfl, rfl, rfl, rfl, rfl, rfl, rfl, rfl, rfl⟩

/-- Claim C8: once some `initialize` call has succeeded (Ready), no later
sequence of operations — including further `initialize` calls with any
arguments — leaves the Ready state; re-initialization overwrites only the
three stored handles (all counters, last fields and the callback are
untouched), and the monitor keeps accepting events (a presented ingestion
still updates the presented counter as usual). -/
theorem ready_is_permanent (ops extra : List Op) (d s p ts sq fl : Nat)
    (m : MonitorState) (h : readyAfter ops = true) :
    readyAfter (ops ++ extra) = true
    ∧ (initMonitor d s p m).1
        = { m with wl_display := d, wl_surface := s, wp_presentation := p }
    ∧ (simulate_presented ts sq fl m).1.presented_count
        = (m.presented_count + 1) % 2 ^ 64 := by
  refine ⟨?_, rfl, by simp [simulate_presented_fst]⟩
  simp only [readyAfter, List.any_append, Bool.or_eq_true]
  left
  exact h

/-- Witness for `ready_is_permanent`: a successful `initialize(1, 1, 1)`
followed by a failed `initialize(0, 0, 0)` still leaves the history
Ready. -/
theorem ready_is_permanent_witness :
    readyAfter [Op.initMonitor 1 1 1] = true
    ∧ readyAfter ([Op.initMonitor 1 1 1] ++ [Op.initMonitor 0 0 0])
        = true :=
  ⟨by decide,
   (ready_is_permanent [Op.initMonitor 1 1 1] [Op.initMonitor 0 0 0]
      0 0 0 0 0 0 freshMonitor (by decide)).1⟩

/-- Claim C9: for all `uint64_t` values, `get_timer_diff_ms(start, end)`
computes `(end - start) / 1000` where the subtraction is unsigned 64-bit
(wrapping modulo `2 ^ 64`); the result is never negative, and when
`end < start` it equals the large positive value
`(2 ^ 64 - (start - end)) / 1000`. -/
theorem timer_diff_wraps (start stop : Nat) (hs : start < 2 ^ 64)
    (he : stop < 2 ^ 64) :
    get_timer_diff_ms start stop
        = (((stop + 2 ^ 64 - start) % 2 ^ 64 : Nat) : ℚ) / 1000
    ∧ 0 ≤ get_timer_diff_ms start stop
    ∧ (stop < start →
        get_timer_diff_ms start stop
            = ((2 ^ 64 - (start - stop) : Nat) : ℚ) / 1000
        ∧ 0 < get_timer_diff_ms start stop) := by
  have h1 : uint64_sub stop start = (stop + 2 ^ 64 - start) % 2 ^ 64 := by
    unfold uint64_sub
    rw [Nat.mod_eq_of_lt hs]
  refine ⟨by rw [get_timer_diff_ms, h1], ?_, ?_⟩
  · unfold get_timer_diff_ms
    positivity
  · intro hlt
    have hMn : (2 : Nat) ^ 64 = 18446744073709551616 := by norm_num
    have h2 : (stop + 2 ^ 64 - start) % 2 ^ 64 = 2 ^ 64 - (start - stop) := by
      rw [hMn] at hs he ⊢
      omega
    have h3 : 0 < 2 ^ 64 - (start - stop) := by
      rw [hMn] at hs ⊢
      omega
    refine ⟨by rw [get_timer_diff_ms, h1, h2], ?_⟩
    rw [get_timer_diff_ms, h1, h2]
    have h4 : (0 : ℚ) < ((2 ^ 64 - (start - stop) : Nat) : ℚ) := by
      exact_mod_cast h3
    positivity

/-- Witness for `timer_diff_wraps` at `start = 5`, `end = 3` (a wrapped,
"negative" interval). -/
theorem timer_diff_wraps_witness :
    5 < 2 ^ 64 ∧ 3 < 2 ^ 64 ∧ 0 ≤ get_timer_diff_ms 5 3 :=
  ⟨by norm_num, by norm_num,
   (timer_diff_wraps 5 3 (by norm_num) (by norm_num)).2.1⟩

/-- Claim C10: the stub handle providers always yield null tokens —
`get_wl_display_ptr()` returns 0 and `get_wl_surface_ptr(q)` returns 0 for
every input — so an `initialize` call fed from them always returns false,
whatever the third handle and the current state. -/
theorem stub_handles_always_null (q p : Nat) (m : MonitorState) :
    get_wl_display_ptr = 0
    ∧ get_wl_surface_ptr q = 0
    ∧ (initMonitor get_wl_display_ptr (get_wl_surface_ptr q) p m).2
        = false :=
  ⟨rfl, rfl, rfl⟩
